import Mathlib

/-!
Verification development for the learning engine of the `smart` repository.

The Python module `src/ai/learning_engine.py` is shallowly embedded here:

- `SimpleTextAnalyzer.simple_tokenize`, `analyze_sentiment`, `extract_topics`
  and `classify_intent` become pure functions over `String`.
- `SimplePatternAnalyzer` becomes a family of functions producing a `Patterns`
  record whose fields are `Option`-valued, mirroring the Python dict whose
  keys may be absent (empty input).
- `LearningEngine.process_user_interactions` becomes `processFull`, which is
  parametrised over a `FallibleAnalyzer`: the per-field analysis calls are
  modelled as `Except String`-valued so that the try/except structure of
  `_analyze_single_interaction` (catch, record `Interaction {id}: {msg}`,
  continue) is represented faithfully; the everywhere-defined analyzer
  `okAnalyzer` instantiates it with the real text analysis functions.

Modelling conventions:
- Python float arithmetic is modelled by exact rational arithmetic over `ℚ`.
- Python character classes are modelled at ASCII precision: the regular
  expression class `\w` becomes ASCII alphanumeric or underscore, `\s` the
  six ASCII whitespace characters, and `str.lower` maps only ASCII letters.
  All keyword tables of the source are ASCII, so every claim treated below
  is insensitive to this restriction.
- In-place mutation of the interaction objects is modelled functionally:
  `processFull` returns the updated interaction list as its second component.
- Wall-clock time is an input: the measured duration in milliseconds is a
  `Nat` parameter `durationMs` standing for the clock difference the Python
  code computes with `datetime.utcnow()`.
-/

namespace Smart

/-- ASCII model of the whitespace class `\s` used by `re` and by `str.split`. -/
def pyIsSpace (c : Char) : Bool :=
  c = ' ' || c = '\t' || c = '\n' || c = '\r' || c = '\x0b' || c = '\x0c'

/-- ASCII model of the word-character class `\w`: alphanumeric or underscore. -/
def isWordChar (c : Char) : Bool :=
  c.isAlphanum || c = '_'

/-- ASCII model of Python `str.lower` (`Char.toLower` lowers only ASCII). -/
def strLower (s : String) : String :=
  ⟨s.data.map Char.toLower⟩

/-- Helper of `splitWs`: accumulates the current word (reversed) while
scanning. Models `str.split()` splitting on whitespace runs. -/
def splitWsAux : List Char → List Char → List (List Char)
  | [], acc => if acc.isEmpty then [] else [acc.reverse]
  | c :: cs, acc =>
    if pyIsSpace c then
      if acc.isEmpty then splitWsAux cs [] else acc.reverse :: splitWsAux cs []
    else splitWsAux cs (c :: acc)

/-- Split a character list on runs of whitespace, discarding empty pieces,
as Python `str.split()` does. -/
def splitWs (s : List Char) : List (List Char) :=
  splitWsAux s []

/-- Embedding of `SimpleTextAnalyzer.simple_tokenize`:
`re.sub(r'[^\w\s]', ' ', text.lower())` followed by `.split()` and a filter
dropping empty tokens. -/
def simple_tokenize (text : String) : List String :=
  let cleaned := (strLower text).data.map (fun c => if isWordChar c || pyIsSpace c then c else ' ')
  ((splitWs cleaned).map (fun t => String.mk t)).filter (fun t => t ≠ "")

/-- The stop-word set of `SimpleTextAnalyzer.__init__` (a Python set literal;
only membership is ever used, so a list is an adequate model). -/
def stop_words : List String :=
  ["a", "an", "and", "are", "as", "at", "be", "by", "for", "from",
   "has", "he", "in", "is", "it", "its", "of", "on", "that", "the",
   "to", "was", "were", "will", "with", "i", "you", "me", "we", "they",
   "this", "that", "these", "those", "am", "can", "could", "should",
   "would", "have", "had", "has"]

/-- The positive sentiment word set of `SimpleTextAnalyzer.__init__`. -/
def positive_words : List String :=
  ["love", "like", "enjoy", "amazing", "awesome", "great", "fantastic",
   "wonderful", "excellent", "perfect", "good", "best", "beautiful",
   "happy", "pleased", "excited", "thrilled", "appreciate", "thanks"]

/-- The negative sentiment word set of `SimpleTextAnalyzer.__init__`. -/
def negative_words : List String :=
  ["hate", "dislike", "awful", "terrible", "horrible", "bad", "worst",
   "annoying", "frustrated", "angry", "disappointed", "confused",
   "difficult", "problem", "issue", "wrong", "error", "fail"]

/-- `sum(1 for token in tokens if token in self.positive_words)`. -/
def positiveCount (text : String) : Nat :=
  (simple_tokenize text).countP (fun t => decide (t ∈ positive_words))

/-- `sum(1 for token in tokens if token in self.negative_words)`. -/
def negativeCount (text : String) : Nat :=
  (simple_tokenize text).countP (fun t => decide (t ∈ negative_words))

/-- Embedding of `SimpleTextAnalyzer.analyze_sentiment`. The internal
try/except can only fire on non-string input, which the typed embedding
excludes; floats are modelled as rationals. -/
def analyze_sentiment (text : String) : ℚ :=
  let tokens := simple_tokenize text
  if positiveCount text + negativeCount text = 0 then 0
  else
    let sentiment : ℚ :=
      ((positiveCount text : ℚ) - (negativeCount text : ℚ)) / ((max tokens.length 1 : Nat) : ℚ)
    max (-1) (min 1 (sentiment * 2))

/-- Remove duplicates from a list keeping the first occurrence of each
element; the result order is the first-encounter order. This is the key
iteration order of a Python `dict` / `collections.Counter`. -/
def firstDedup {α : Type} [DecidableEq α] : List α → List α
  | [] => []
  | x :: xs => x :: (firstDedup xs).filter (fun y => decide (y ≠ x))

/-- Embedding of `collections.Counter(l).items()`: the distinct elements in
first-encounter order, each paired with its multiplicity. -/
def counterList {α : Type} [DecidableEq α] (l : List α) : List (α × Nat) :=
  (firstDedup l).map (fun t => (t, l.count t))

/-- Comparison used to model `Counter.most_common`: an item precedes another
if its count is larger, or the counts are equal and it was inserted earlier
(the first component is the insertion index). On index-annotated items this
total preorder is exactly what a stable descending sort by count computes. -/
def mcRel {α : Type} : Nat × α × Nat → Nat × α × Nat → Prop :=
  fun x y => y.2.2 < x.2.2 ∨ (x.2.2 = y.2.2 ∧ x.1 ≤ y.1)

instance mcRel.decRel {α : Type} : DecidableRel (@mcRel α) := fun x y =>
  inferInstanceAs (Decidable (y.2.2 < x.2.2 ∨ (x.2.2 = y.2.2 ∧ x.1 ≤ y.1)))

instance mcRel.isTotal {α : Type} : IsTotal (Nat × α × Nat) mcRel :=
  ⟨fun a b => by unfold mcRel; omega⟩

instance mcRel.isTrans {α : Type} : IsTrans (Nat × α × Nat) mcRel :=
  ⟨fun a b c h1 h2 => by unfold mcRel at h1 h2 ⊢; omega⟩

/-- Embedding of `Counter.most_common()` (all items): sort the counter items
by descending count, ties kept in first-insertion order. CPython documents
this as a stable descending sort; sorting the index-annotated items by
`mcRel` and projecting the annotation away is an equivalent description. -/
def mostCommon {α : Type} [DecidableEq α] (c : List (α × Nat)) : List (α × Nat) :=
  (List.insertionSort mcRel c.enum).map Prod.snd

/-- The filtered token list of `SimpleTextAnalyzer.extract_topics`:
tokens that are not stop words and have length above 2. -/
def filteredTokens (text : String) : List String :=
  (simple_tokenize text).filter (fun t => decide (t ∉ stop_words) && decide (2 < t.length))

/-- Embedding of `SimpleTextAnalyzer.extract_topics`: frequency-count the
filtered tokens and return the words of the 10 most common items. -/
def extract_topics (text : String) : List String :=
  ((mostCommon (counterList (filteredTokens text))).take 10).map Prod.fst

/-- `'needle' in hay` for character lists: substring containment. -/
def hasSub (needle : List Char) : List Char → Bool
  | [] => needle.isEmpty
  | c :: cs => needle.isPrefixOf (c :: cs) || hasSub needle cs

/-- Python substring test `needle in hay` on strings. -/
def strContains (hay needle : String) : Bool :=
  hasSub needle.data hay.data

/-- `any(word in text for word in words)`. -/
def contains_any (text : String) (words : List String) : Bool :=
  words.any (fun w => strContains text w)

/-- Keyword list of the first `classify_intent` rule. -/
def help_keywords : List String := ["help", "how", "what", "explain", "tell me"]

/-- Keyword list of the second `classify_intent` rule. -/
def preference_keywords : List String := ["like", "love", "prefer", "enjoy"]

/-- Keyword list of the third `classify_intent` rule. -/
def gratitude_keywords : List String := ["thank", "thanks", "appreciate"]

/-- Keyword list of the fourth `classify_intent` rule. -/
def greeting_keywords : List String := ["hello", "hi", "hey", "good morning"]

/-- Embedding of `SimpleTextAnalyzer.classify_intent`: ordered substring
rules over the lowercased text, first match wins. -/
def classify_intent (text : String) : String :=
  let t := strLower text
  if contains_any t help_keywords then "help_request"
  else if contains_any t preference_keywords then "preference_expression"
  else if contains_any t gratitude_keywords then "gratitude"
  else if contains_any t greeting_keywords then "greeting"
  else if strContains t "?" then "question"
  else "statement"

/-- Model of a `datetime` value: seconds since the Unix epoch. The projections
below model the attribute accesses the pattern analyzer performs. -/
structure Dt where
  seconds : Int
deriving DecidableEq

/-- `datetime.hour` for a UTC instant. -/
def Dt.hour (t : Dt) : Int := (t.seconds.fdiv 3600).emod 24

/-- `datetime.weekday()` (Monday is 0; the epoch day was a Thursday). -/
def Dt.weekday (t : Dt) : Int := ((t.seconds.fdiv 86400) + 3).emod 7

/-- Model of the `UserInteraction` record (`src/models/__init__.py`): the
fields the learning engine reads or writes. `Option` models SQL nullability;
`sentiment` is nullable float, `topics` nullable JSON list, `intent` nullable
string. -/
structure UserInteraction where
  id : Nat
  user_id : Nat
  interaction_type : String
  content : Option String
  timestamp : Dt
  sentiment : Option ℚ
  topics : Option (List String)
  intent : Option String
  processed : Bool
deriving DecidableEq

/-- Python truthiness of the nullable float `sentiment`:
`None` and `0.0` are falsy. -/
def truthyFloat : Option ℚ → Bool
  | none => false
  | some x => decide (x ≠ 0)

/-- Python truthiness of the nullable list `topics`:
`None` and `[]` are falsy. -/
def truthyList : Option (List String) → Bool
  | none => false
  | some l => !l.isEmpty

/-- Python truthiness of the nullable string `intent`:
`None` and the empty string are falsy. -/
def truthyStr : Option String → Bool
  | none => false
  | some s => decide (s ≠ "")

/-- `len(interaction.content or '')`. -/
def contentLen (i : UserInteraction) : Nat := (i.content.getD "").length

/-- Result dict of `_analyze_time_patterns`. -/
structure TimePatterns where
  most_active_hour : Option Int
  most_active_day : Option Int
  activity_distribution : List (Int × Nat)
deriving DecidableEq

/-- Embedding of `SimplePatternAnalyzer._analyze_time_patterns`. -/
def analyzeTimePatterns (ints : List UserInteraction) : TimePatterns :=
  let hour_counts := counterList (ints.map (fun i => i.timestamp.hour))
  let day_counts := counterList (ints.map (fun i => i.timestamp.weekday))
  { most_active_hour :=
      match mostCommon hour_counts with
      | [] => none
      | x :: _ => some x.1
    most_active_day :=
      match mostCommon day_counts with
      | [] => none
      | x :: _ => some x.1
    activity_distribution := hour_counts }

/-- Result dict of `_analyze_frequency_patterns`; only `interaction_count`
is present when fewer than two interactions exist. -/
structure FrequencyPatterns where
  interaction_count : Nat
  average_time_between_interactions_hours : Option ℚ
  date_range_days : Option Int
deriving DecidableEq

/-- Embedding of `SimplePatternAnalyzer._analyze_frequency_patterns`.
`sorted(..., key=timestamp)` is a stable sort, modelled by insertion sort. -/
def analyzeFrequencyPatterns (ints : List UserInteraction) : FrequencyPatterns :=
  if ints.length < 2 then
    { interaction_count := ints.length
      average_time_between_interactions_hours := none
      date_range_days := none }
  else
    let sorted := List.insertionSort (fun a b => a.timestamp.seconds ≤ b.timestamp.seconds) ints
    let time_diffs : List ℚ :=
      (sorted.zip sorted.tail).map
        (fun p => ((p.2.timestamp.seconds - p.1.timestamp.seconds : Int) : ℚ) / 3600)
    let avg : ℚ := if time_diffs.isEmpty then 0 else time_diffs.sum / (time_diffs.length : ℚ)
    let date_range : Int :=
      match sorted.head?, sorted.getLast? with
      | some f, some l => (l.timestamp.seconds - f.timestamp.seconds).fdiv 86400
      | _, _ => 0
    { interaction_count := ints.length
      average_time_between_interactions_hours := some avg
      date_range_days := some date_range }

/-- Result dict of `_analyze_content_patterns`. -/
structure ContentPatterns where
  average_content_length : ℚ
  content_length_trend : String
  interaction_types : List (String × Nat)
deriving DecidableEq

/-- Mean of the first half (`lengths[:len//2]`) of the content lengths
(an integer sum divided by an integer count, as in Python). -/
def firstHalfAvg (ints : List UserInteraction) : ℚ :=
  let ls := ints.map contentLen
  let fh := ls.take (ls.length / 2)
  (fh.sum : ℚ) / (fh.length : ℚ)

/-- Mean of the second half (`lengths[len//2:]`) of the content lengths. -/
def secondHalfAvg (ints : List UserInteraction) : ℚ :=
  let ls := ints.map contentLen
  let sh := ls.drop (ls.length / 2)
  (sh.sum : ℚ) / (sh.length : ℚ)

/-- Embedding of `SimplePatternAnalyzer._analyze_content_patterns`. -/
def analyzeContentPatterns (ints : List UserInteraction) : ContentPatterns :=
  let content_lengths := ints.map contentLen
  let avg_length : ℚ :=
    if content_lengths.isEmpty then 0
    else (content_lengths.sum : ℚ) / (content_lengths.length : ℚ)
  let trend :=
    if 5 < content_lengths.length then
      if secondHalfAvg ints > firstHalfAvg ints * 1.1 then "increasing"
      else if secondHalfAvg ints < firstHalfAvg ints * 0.9 then "decreasing"
      else "stable"
    else "stable"
  { average_content_length := avg_length
    content_length_trend := trend
    interaction_types := counterList (ints.map (fun i => i.interaction_type)) }

/-- Result dict of `_analyze_sentiment_trends`. -/
structure SentimentTrends where
  average_sentiment : ℚ
  sentiment_trend : String
deriving DecidableEq

/-- Embedding of `SimplePatternAnalyzer._analyze_sentiment_trends`
(`interaction.sentiment or 0` maps both `None` and `0.0` to `0`). -/
def analyzeSentimentTrends (ints : List UserInteraction) : SentimentTrends :=
  let sentiments := ints.map (fun i => i.sentiment.getD 0)
  if sentiments.isEmpty then { average_sentiment := 0, sentiment_trend := "stable" }
  else
    let avg := sentiments.sum / (sentiments.length : ℚ)
    let trend :=
      if 5 < sentiments.length then
        let fh := sentiments.take (sentiments.length / 2)
        let sh := sentiments.drop (sentiments.length / 2)
        let first_avg := fh.sum / (fh.length : ℚ)
        let second_avg := sh.sum / (sh.length : ℚ)
        if second_avg > first_avg + 0.1 then "improving"
        else if second_avg < first_avg - 0.1 then "declining"
        else "stable"
      else "stable"
    { average_sentiment := avg, sentiment_trend := trend }

/-- Result dict of `_analyze_topic_patterns`. -/
structure TopicPatterns where
  top_topics : List (String × Nat)
  topic_diversity : Nat
deriving DecidableEq

/-- Embedding of `SimplePatternAnalyzer._analyze_topic_patterns`: flatten the
truthy topic lists, count, and keep the 10 most common. -/
def analyzeTopicPatterns (ints : List UserInteraction) : TopicPatterns :=
  let all_topics :=
    ints.foldr (fun i acc => (if truthyList i.topics then i.topics.getD [] else []) ++ acc) []
  { top_topics := (mostCommon (counterList all_topics)).take 10
    topic_diversity := (firstDedup all_topics).length }

/-- The pattern dict assembled by `analyze_interaction_patterns`; `none`
models an absent key (the dict stays empty for empty input). -/
structure Patterns where
  active_hours : Option TimePatterns
  interaction_frequency : Option FrequencyPatterns
  content_patterns : Option ContentPatterns
  sentiment_trends : Option SentimentTrends
  topic_preferences : Option TopicPatterns
deriving DecidableEq

/-- Embedding of `SimplePatternAnalyzer.analyze_interaction_patterns`. -/
def analyze_interaction_patterns (ints : List UserInteraction) : Patterns :=
  if ints.isEmpty then ⟨none, none, none, none, none⟩
  else
    { active_hours := some (analyzeTimePatterns ints)
      interaction_frequency := some (analyzeFrequencyPatterns ints)
      content_patterns := some (analyzeContentPatterns ints)
      sentiment_trends := some (analyzeSentimentTrends ints)
      topic_preferences := some (analyzeTopicPatterns ints) }

/-- Model of the fact dicts built by `_generate_facts_from_patterns`.
`evidence_count` is `none` when the dict omits the key; the storage layer
(`LearnedFact.evidence_count = Column(Integer, default=1)`) then applies the
default 1, see `evidenceCountOrDefault`. -/
structure LearnedFact where
  user_id : Nat
  category : String
  fact_type : String
  fact_key : String
  fact_value : String
  confidence_level : String
  evidence_count : Option Nat
  learning_method : String
deriving DecidableEq

/-- The evidence count a fact dict carries once stored: the value of its
`evidence_count` key, or the `LearnedFact` column default 1 when absent. -/
def evidenceCountOrDefault (f : LearnedFact) : Nat :=
  f.evidence_count.getD 1

/-- First block of `_generate_facts_from_patterns`: the time preference fact,
emitted when a most active hour is present. -/
def time_preference_facts (userId : Nat) (patterns : Patterns) : List LearnedFact :=
  match patterns.active_hours with
  | some tp =>
    match tp.most_active_hour with
    | some h =>
      [{ user_id := userId, category := "behavior", fact_type := "time_preference",
         fact_key := "most_active_hour", fact_value := toString h,
         confidence_level := "medium", evidence_count := none,
         learning_method := "pattern_analysis" }]
    | none => []
  | none => []

/-- Second block of `_generate_facts_from_patterns`: the message length
preference fact, emitted when the mean content length is positive. -/
def message_length_facts (userId : Nat) (patterns : Patterns) : List LearnedFact :=
  match patterns.content_patterns with
  | some cp =>
    if cp.average_content_length > 0 then
      [{ user_id := userId, category := "communication",
         fact_type := "message_length_preference",
         fact_key := "preferred_response_length",
         fact_value :=
           if cp.average_content_length > 100 then "detailed"
           else if cp.average_content_length < 50 then "brief" else "moderate",
         confidence_level := "medium", evidence_count := none,
         learning_method := "pattern_analysis" }]
    else []
  | none => []

/-- The topic interest fact for one `(topic, count)` entry. -/
def topicInterestFact (userId : Nat) (q : String × Nat) : LearnedFact :=
  { user_id := userId, category := "interests", fact_type := "topic_interest",
    fact_key := "interest_" ++ q.1,
    fact_value := "Shows strong interest in " ++ q.1,
    confidence_level := if 5 < q.2 then "high" else "medium",
    evidence_count := some q.2, learning_method := "topic_analysis" }

/-- Third block of `_generate_facts_from_patterns`: one topic interest fact
for each of the first five `top_topics` entries whose count is at least 3,
guarded by the truthiness test on `top_topics`. -/
def topic_interest_facts (userId : Nat) (patterns : Patterns) : List LearnedFact :=
  match patterns.topic_preferences with
  | some tp =>
    if tp.top_topics.isEmpty then []
    else
      (tp.top_topics.take 5).filterMap (fun q =>
        if 3 ≤ q.2 then some (topicInterestFact userId q) else none)
  | none => []

/-- Embedding of `LearningEngine._generate_facts_from_patterns`: the three
blocks append their facts to one list in source order. -/
def generate_facts_from_patterns (userId : Nat) (patterns : Patterns) : List LearnedFact :=
  time_preference_facts userId patterns ++ message_length_facts userId patterns ++
    topic_interest_facts userId patterns

/-- Model of the `UserInsight` dataclass. Its `timestamp` field defaults to
the creation instant and is never read by the engine, so it is omitted. -/
structure UserInsight where
  category : String
  insight : String
  confidence : ℚ
  evidence : List String
deriving DecidableEq

/-- Round `q * 100` to an integer, ties to even, modelling the rounding of
the format `{q:.2f}` (exact rational model of the float formatting used in
an insight evidence string; no claim depends on it). -/
def fmtRound2 (q : ℚ) : Int :=
  let x := q * 100
  let f := Rat.floor x
  if x - f > 1 / 2 then f + 1
  else if x - f < 1 / 2 then f
  else if f % 2 = 0 then f else f + 1

/-- `f"{q:.2f}"` over the rational model. -/
def fmt2 (q : ℚ) : String :=
  let r := fmtRound2 q
  let sign := if r < 0 then "-" else ""
  let a := r.natAbs
  let frac := a % 100
  sign ++ toString (a / 100) ++ "." ++ (if frac < 10 then "0" ++ toString frac else toString frac)

/-- Embedding of `LearningEngine._generate_insights`. -/
def generate_insights (ints : List UserInteraction) (patterns : Patterns) :
    List UserInsight :=
  let icount :=
    match patterns.interaction_frequency with
    | some fp => fp.interaction_count
    | none => 0
  let engagement : List UserInsight :=
    if 10 < icount then
      [{ category := "engagement",
         insight := "User is highly engaged with frequent interactions",
         confidence := 0.8,
         evidence := ["Had " ++ toString icount ++ " interactions"] }]
    else []
  let recent := if 10 < ints.length then ints.drop (ints.length - 10) else ints
  let communication : List UserInsight :=
    if recent.isEmpty then []
    else
      let avg := (recent.map (fun i => i.sentiment.getD 0)).sum / (recent.length : ℚ)
      if avg > 0.1 then
        [{ category := "communication",
           insight := "User generally communicates with positive sentiment",
           confidence := 0.7,
           evidence := ["Average sentiment: " ++ fmt2 avg] }]
      else []
  let help_requests := ints.filter (fun i => decide (i.intent = some "help_request"))
  let learning : List UserInsight :=
    if 3 < help_requests.length then
      [{ category := "learning",
         insight := "User prefers learning through asking questions",
         confidence := 0.6,
         evidence := ["Made " ++ toString help_requests.length ++ " help requests"] }]
    else []
  engagement ++ communication ++ learning

/-- The per-field analysis interface used by `_analyze_single_interaction`,
with `Except String` modelling a raised exception. Quantifying over this
record covers every possible failure behaviour of the three analysis calls;
`okAnalyzer` below is the actual, everywhere-defined implementation. -/
structure FallibleAnalyzer where
  sentimentE : String → Except String ℚ
  topicsE : String → Except String (List String)
  intentE : String → Except String String

/-- The error string `f"Interaction {interaction.id}: {str(e)}"`. -/
def errMsg (i : UserInteraction) (e : String) : String :=
  "Interaction " ++ toString i.id ++ ": " ++ e

/-- Embedding of `LearningEngine._analyze_single_interaction`: fill each of
sentiment, topics, intent when its current value is falsy; a raised
exception aborts the remaining fills, keeps the mutations already made, and
is reported as the error message of this interaction. -/
def analyzeSingleWith (A : FallibleAnalyzer) (i : UserInteraction) :
    UserInteraction × Option String :=
  let content := i.content.getD ""
  match (if truthyFloat i.sentiment then Except.ok i
         else (A.sentimentE content).map (fun v => { i with sentiment := some v })) with
  | .error e => (i, some (errMsg i e))
  | .ok i1 =>
    match (if truthyList i1.topics then Except.ok i1
           else (A.topicsE content).map (fun v => { i1 with topics := some v })) with
    | .error e => (i1, some (errMsg i1 e))
    | .ok i2 =>
      match (if truthyStr i2.intent then Except.ok i2
             else (A.intentE content).map (fun v => { i2 with intent := some v })) with
      | .error e => (i2, some (errMsg i2 e))
      | .ok i3 => (i3, none)

/-- The real analyzer: the three total analysis functions, never failing
(each already catches internally or cannot raise on string input). -/
def okAnalyzer : FallibleAnalyzer :=
  { sentimentE := fun s => Except.ok (analyze_sentiment s)
    topicsE := fun s => Except.ok (extract_topics s)
    intentE := fun s => Except.ok (classify_intent s) }

/-- Model of the `LearningResult` dataclass. -/
structure LearningResult where
  user_id : Nat
  new_facts : List LearnedFact
  updated_facts : List LearnedFact
  insights : List UserInsight
  processing_time_ms : Int
  errors : List String
deriving DecidableEq

/-- Embedding of `LearningEngine.process_user_interactions`, parametrised by
the per-field analyzer; the second component is the interaction list after
the in-place mutations. Pattern analysis, fact generation and insight
generation run on the mutated interactions, as in the source, and each of
them catches internally, so at this level only the per-interaction analysis
contributes error strings. -/
def processFull (A : FallibleAnalyzer) (userId : Nat) (durationMs : Nat)
    (interactions : List UserInteraction) : LearningResult × List UserInteraction :=
  let analyzed := interactions.map
    (fun i => if i.processed then (i, (none : Option String)) else analyzeSingleWith A i)
  let updated := analyzed.map Prod.fst
  let errs := analyzed.filterMap Prod.snd
  let patterns := analyze_interaction_patterns updated
  let pattern_facts := generate_facts_from_patterns userId patterns
  let insights := generate_insights updated patterns
  ({ user_id := userId, new_facts := pattern_facts, updated_facts := [],
     insights := insights, processing_time_ms := (durationMs : Int), errors := errs },
   updated)

/-- `process(userId, interactions)` with the real analyzer; `durationMs` is
the measured wall-clock duration. -/
def process_user_interactions (userId : Nat) (durationMs : Nat)
    (interactions : List UserInteraction) : LearningResult :=
  (processFull okAnalyzer userId durationMs interactions).1

/-- Concrete interaction whose sentiment field is populated with `0.0`. -/
def c4Interaction : UserInteraction :=
  { id := 1, user_id := 1, interaction_type := "message", content := some "love",
    timestamp := ⟨0⟩, sentiment := some 0, topics := none, intent := none, processed := false }

/-- Concrete topic statistics used to instantiate the fact generation. -/
def c5TopicPatterns : TopicPatterns :=
  { top_topics := [("guitar", 6), ("jazz", 3), ("drums", 2)], topic_diversity := 3 }

/-- Concrete pattern mapping holding only topic statistics. -/
def c5Patterns : Patterns :=
  { active_hours := none, interaction_frequency := none, content_patterns := none,
    sentiment_trends := none, topic_preferences := some c5TopicPatterns }

/-- Builder for a plain message interaction with the given id and content. -/
def mkMsg (n : Nat) (c : String) : UserInteraction :=
  { id := n, user_id := 1, interaction_type := "message", content := some c,
    timestamp := ⟨0⟩, sentiment := none, topics := none, intent := none, processed := true }

/-- Six interactions whose content lengths are 1, 1, 1, 9, 9, 9. -/
def c8Interactions : List UserInteraction :=
  [mkMsg 1 "a", mkMsg 2 "a", mkMsg 3 "a",
   mkMsg 4 "aaaaaaaaa", mkMsg 5 "aaaaaaaaa", mkMsg 6 "aaaaaaaaa"]

/-- A single already-processed interaction with empty data. -/
def c9Interaction : UserInteraction :=
  { id := 3, user_id := 7, interaction_type := "message", content := none,
    timestamp := ⟨0⟩, sentiment := none, topics := none, intent := none, processed := true }

/-- The time preference fact that processing `c9Interaction` emits. -/
def c9Fact : LearnedFact :=
  { user_id := 7, category := "behavior", fact_type := "time_preference",
    fact_key := "most_active_hour", fact_value := "0", confidence_level := "medium",
    evidence_count := none, learning_method := "pattern_analysis" }

/-! Helper lemmas shared by the claim theorems. -/

/-- The real analyzer never produces a per-interaction error string. -/
theorem analyzeSingleWith_ok_snd (i : UserInteraction) :
    (analyzeSingleWith okAnalyzer i).2 = none := by
  unfold analyzeSingleWith okAnalyzer
  simp only [Except.map, ← apply_ite Except.ok]

/-- The error list of a processing run consists exactly of the error strings
of the failing per-interaction analyses, in input order. -/
theorem processFull_errors (A : FallibleAnalyzer) (userId durationMs : Nat)
    (interactions : List UserInteraction) :
    (processFull A userId durationMs interactions).1.errors =
      interactions.filterMap
        (fun i => if i.processed then none else (analyzeSingleWith A i).2) := by
  simp only [processFull, List.filterMap_map]
  congr 1
  funext i
  by_cases h : i.processed <;> simp [h]

/-- Every generated fact carries an effective evidence count of at least 1. -/
theorem facts_evidence (userId : Nat) (p : Patterns) (f : LearnedFact)
    (hf : f ∈ generate_facts_from_patterns userId p) :
    1 ≤ evidenceCountOrDefault f := by
  unfold generate_facts_from_patterns time_preference_facts message_length_facts
    topic_interest_facts at hf
  simp only [List.mem_append] at hf
  rcases hf with (hf | hf) | hf
  · split at hf
    · split at hf
      · simp at hf
        subst hf
        simp [evidenceCountOrDefault]
      · simp at hf
    · simp at hf
  · split at hf
    · split at hf
      · simp at hf
        subst hf
        simp [evidenceCountOrDefault]
      · simp at hf
    · simp at hf
  · split at hf
    · split at hf
      · simp at hf
      · rw [List.mem_filterMap] at hf
        obtain ⟨q, hmem, hq⟩ := hf
        by_cases h3 : 3 ≤ q.2
        · rw [if_pos h3] at hq
          injection hq with hq
          subst hq
          simp [evidenceCountOrDefault, topicInterestFact]
          omega
        · rw [if_neg h3] at hq
          exact absurd hq (by simp)
    · simp at hf

/-- Filtering the output of a guarded `filterMap` whose produced elements all
satisfy the filter is the same as mapping over the guard-filtered input. -/
theorem filter_filterMap_ite {α β : Type} (P : α → Prop) [DecidablePred P] (g : α → β)
    (Q : β → Bool) (hQ : ∀ a, Q (g a) = true) (l : List α) :
    (l.filterMap (fun a => if P a then some (g a) else none)).filter Q
      = (l.filter (fun a => decide (P a))).map g := by
  induction l with
  | nil => rfl
  | cons x xs ih =>
    by_cases hx : P x <;> simp [hx, hQ, ih]

/-- Concrete sentiment evaluation used by the mutation counterexample. -/
theorem sentiment_love : analyze_sentiment "love" = 1 := by
  unfold analyze_sentiment
  rw [if_neg (by decide)]
  have h1 : positiveCount "love" = 1 := by decide
  have h2 : negativeCount "love" = 0 := by decide
  have h3 : (simple_tokenize "love").length = 1 := by decide
  rw [h1, h2, h3]
  norm_num

/-- Frame property of the per-interaction analysis: only the three derived
fields can change, and a truthy field is kept. -/
theorem analyzeSingleWith_frame (A : FallibleAnalyzer) (i : UserInteraction) :
    (analyzeSingleWith A i).1.id = i.id ∧
    (analyzeSingleWith A i).1.user_id = i.user_id ∧
    (analyzeSingleWith A i).1.interaction_type = i.interaction_type ∧
    (analyzeSingleWith A i).1.content = i.content ∧
    (analyzeSingleWith A i).1.timestamp = i.timestamp ∧
    (analyzeSingleWith A i).1.processed = i.processed ∧
    (truthyFloat i.sentiment = true → (analyzeSingleWith A i).1.sentiment = i.sentiment) ∧
    (truthyList i.topics = true → (analyzeSingleWith A i).1.topics = i.topics) ∧
    (truthyStr i.intent = true → (analyzeSingleWith A i).1.intent = i.intent) := by
  unfold analyzeSingleWith
  rcases hA1 : A.sentimentE (i.content.getD "") with e1 | v1 <;>
  rcases hA2 : A.topicsE (i.content.getD "") with e2 | v2 <;>
  rcases hA3 : A.intentE (i.content.getD "") with e3 | v3 <;>
  by_cases h1 : truthyFloat i.sentiment <;>
  by_cases h2 : truthyList i.topics <;>
  by_cases h3 : truthyStr i.intent <;>
  simp [hA1, hA2, hA3, h1, h2, h3, Except.map]

/-- The first half mean of the content lengths is nonnegative. -/
theorem firstHalfAvg_nonneg (ints : List UserInteraction) : 0 ≤ firstHalfAvg ints := by
  unfold firstHalfAvg
  exact div_nonneg (Nat.cast_nonneg _) (Nat.cast_nonneg _)

/-- Membership is preserved by first-occurrence deduplication. -/
theorem mem_firstDedup {α : Type} [DecidableEq α] {a : α} :
    ∀ {l : List α}, a ∈ firstDedup l ↔ a ∈ l := by
  intro l
  induction l with
  | nil => simp [firstDedup]
  | cons x xs ih =>
    simp only [firstDedup, List.mem_cons, List.mem_filter, ih, decide_eq_true_eq]
    by_cases hax : a = x
    · simp [hax]
    · simp [hax]

/-- First-occurrence deduplication yields a duplicate-free list. -/
theorem nodup_firstDedup {α : Type} [DecidableEq α] : ∀ (l : List α), (firstDedup l).Nodup := by
  intro l
  induction l with
  | nil => simp [firstDedup]
  | cons x xs ih =>
    rw [show firstDedup (x :: xs) = x :: (firstDedup xs).filter (fun y => decide (y ≠ x)) from rfl]
    rw [List.nodup_cons]
    constructor
    · intro hx
      rw [List.mem_filter] at hx
      simp at hx
    · exact List.Nodup.filter _ ih

/-- In a duplicate-free list the index of the element stored at a position
is that position. -/
theorem indexOf_getElem?_of_nodup {α : Type} [DecidableEq α] :
    ∀ (l : List α), l.Nodup → ∀ (i : Nat) (a : α), l[i]? = some a → l.indexOf a = i := by
  intro l
  induction l with
  | nil => intro _ i a h; simp at h
  | cons x xs ih =>
    intro hnd i a h
    rw [List.nodup_cons] at hnd
    cases i with
    | zero =>
      simp only [List.getElem?_cons_zero, Option.some.injEq] at h
      subst h
      exact List.indexOf_cons_self _ _
    | succ n =>
      rw [List.getElem?_cons_succ] at h
      have ha : a ∈ xs := List.getElem?_mem h
      have hax : x ≠ a := fun hxa => hnd.1 (hxa ▸ ha)
      rw [List.indexOf_cons_ne _ hax, ih hnd.2 n a h]

/-- Filtering preserves the relative first-occurrence order of the kept
elements. -/
theorem indexOf_filter_lt_iff {α : Type} [DecidableEq α] (p : α → Bool) :
    ∀ (l : List α) (a b : α), a ∈ l.filter p → b ∈ l.filter p →
      ((l.filter p).indexOf a < (l.filter p).indexOf b ↔ l.indexOf a < l.indexOf b) := by
  intro l
  induction l with
  | nil => intro a b ha _; simp at ha
  | cons y ys ih =>
    intro a b ha hb
    by_cases hy : p y
    · rw [List.filter_cons_of_pos hy] at ha hb ⊢
      by_cases hay : a = y
      · subst hay
        by_cases hby : b = a
        · subst hby
          simp
        · rw [List.indexOf_cons_self, List.indexOf_cons_self,
              List.indexOf_cons_ne _ (fun h => hby h.symm),
              List.indexOf_cons_ne _ (fun h => hby h.symm)]
          simp
      · by_cases hby : b = y
        · subst hby
          rw [List.indexOf_cons_self, List.indexOf_cons_self,
              List.indexOf_cons_ne _ (fun h => hay h.symm),
              List.indexOf_cons_ne _ (fun h => hay h.symm)]
          simp
        · have ha' : a ∈ ys.filter p := by
            rcases List.mem_cons.mp ha with h | h
            · exact absurd h hay
            · exact h
          have hb' : b ∈ ys.filter p := by
            rcases List.mem_cons.mp hb with h | h
            · exact absurd h hby
            · exact h
          rw [List.indexOf_cons_ne _ (fun h => hay h.symm),
              List.indexOf_cons_ne _ (fun h => hby h.symm),
              List.indexOf_cons_ne _ (fun h => hay h.symm),
              List.indexOf_cons_ne _ (fun h => hby h.symm)]
          simp only [Nat.succ_lt_succ_iff]
          exact ih a b ha' hb'
    · rw [List.filter_cons_of_neg hy] at ha hb ⊢
      have hpa : p a = true := (List.mem_filter.mp ha).2
      have hpb : p b = true := (List.mem_filter.mp hb).2
      have hya : y ≠ a := fun h => hy (by rw [h]; exact hpa)
      have hyb : y ≠ b := fun h => hy (by rw [h]; exact hpb)
      rw [List.indexOf_cons_ne _ hya, List.indexOf_cons_ne _ hyb, Nat.succ_lt_succ_iff]
      exact ih a b ha hb

/-- The deduplicated list orders two of its elements exactly as their first
occurrences are ordered in the original list. -/
theorem firstDedup_indexOf_lt_iff {α : Type} [DecidableEq α] :
    ∀ (l : List α) (a b : α), a ∈ firstDedup l → b ∈ firstDedup l →
      ((firstDedup l).indexOf a < (firstDedup l).indexOf b ↔ l.indexOf a < l.indexOf b) := by
  intro l
  induction l with
  | nil => intro a b ha _; simp [firstDedup] at ha
  | cons x xs ih =>
    intro a b ha hb
    rw [show firstDedup (x :: xs) = x :: (firstDedup xs).filter (fun y => decide (y ≠ x))
        from rfl] at ha hb ⊢
    by_cases hax : a = x
    · subst hax
      by_cases hbx : b = a
      · subst hbx
        simp
      · rw [List.indexOf_cons_self, List.indexOf_cons_self,
            List.indexOf_cons_ne _ (fun h => hbx h.symm),
            List.indexOf_cons_ne _ (fun h => hbx h.symm)]
        simp
    · by_cases hbx : b = x
      · subst hbx
        rw [List.indexOf_cons_self, List.indexOf_cons_self,
            List.indexOf_cons_ne _ (fun h => hax h.symm),
            List.indexOf_cons_ne _ (fun h => hax h.symm)]
        simp
      · have ha' : a ∈ (firstDedup xs).filter (fun y => decide (y ≠ x)) := by
          rcases List.mem_cons.mp ha with h | h
          · exact absurd h hax
          · exact h
        have hb' : b ∈ (firstDedup xs).filter (fun y => decide (y ≠ x)) := by
          rcases List.mem_cons.mp hb with h | h
          · exact absurd h hbx
          · exact h
        have haxs : a ∈ firstDedup xs := (List.mem_filter.mp ha').1
        have hbxs : b ∈ firstDedup xs := (List.mem_filter.mp hb').1
        rw [List.indexOf_cons_ne _ (fun h => hax h.symm),
            List.indexOf_cons_ne _ (fun h => hbx h.symm),
            List.indexOf_cons_ne _ (fun h => hax h.symm),
            List.indexOf_cons_ne _ (fun h => hbx h.symm)]
        simp only [Nat.succ_lt_succ_iff]
        rw [indexOf_filter_lt_iff _ _ a b ha' hb']
        exact ih a b haxs hbxs

/-- Each index-annotated counter item pairs a distinct element with its
multiplicity, and the annotation is its position in first-encounter order. -/
theorem counter_entry {α : Type} [DecidableEq α] (l : List α) (e : Nat × α × Nat)
    (he : e ∈ (counterList l).enum) :
    e.2.2 = l.count e.2.1 ∧ (firstDedup l).indexOf e.2.1 = e.1 ∧ e.2.1 ∈ firstDedup l := by
  obtain ⟨i, x⟩ := e
  rw [List.mk_mem_enum_iff_getElem?] at he
  unfold counterList at he
  rw [List.getElem?_map] at he
  rcases hd : (firstDedup l)[i]? with _ | t
  · rw [hd] at he
    simp at he
  · rw [hd] at he
    simp only [Option.map_some', Option.some.injEq] at he
    subst he
    refine ⟨rfl, ?_, ?_⟩
    · exact indexOf_getElem?_of_nodup _ (nodup_firstDedup l) i t hd
    · exact List.getElem?_mem hd

/-- Processing `c9Interaction` emits exactly the time preference fact. -/
theorem c9Fact_mem :
    c9Fact ∈ (processFull okAnalyzer 7 0 [c9Interaction]).1.new_facts := by
  simp only [processFull]
  unfold generate_facts_from_patterns
  apply List.mem_append_left
  apply List.mem_append_left
  decide

/-! Claim theorems. -/

/-- C1: for every user id and every interaction list, also with empty or
missing content, and for every failure behaviour of the per-field analysis
calls, `process` returns a `LearningResult` (it is a total function of that
type, modelling that no exception propagates), carrying the given user id,
whose error list consists exactly of the error strings recorded for the
failing per-interaction analyses; with the real analyzer, which never
fails, the error list is empty. -/
theorem C1_process_always_returns_and_collects_errors (A : FallibleAnalyzer)
    (userId durationMs : Nat) (interactions : List UserInteraction) :
    (processFull A userId durationMs interactions).1.user_id = userId ∧
    (processFull A userId durationMs interactions).1.errors =
      interactions.filterMap
        (fun i => if i.processed then none else (analyzeSingleWith A i).2) ∧
    (process_user_interactions userId durationMs interactions).errors = [] := by
  refine ⟨rfl, processFull_errors A userId durationMs interactions, ?_⟩
  unfold process_user_interactions
  rw [processFull_errors, List.filterMap_eq_nil_iff]
  intro i _
  by_cases hp : i.processed <;> simp [hp, analyzeSingleWith_ok_snd]

/-- C2: for every input string the sentiment score lies in `[-1, 1]`; it is
`0` when no token is a positive or negative word (the counts are then zero),
and otherwise equals `clamp (-1) 1 (2 * (pos - neg) / max 1 tokenCount)`. -/
theorem C2_sentiment_range_and_formula (text : String) :
    (-1 ≤ analyze_sentiment text ∧ analyze_sentiment text ≤ 1) ∧
    (positiveCount text + negativeCount text = 0 → analyze_sentiment text = 0) ∧
    (positiveCount text + negativeCount text ≠ 0 →
      analyze_sentiment text =
        max (-1) (min 1 (2 * ((positiveCount text : ℚ) - (negativeCount text : ℚ)) /
          ((max 1 (simple_tokenize text).length : Nat) : ℚ)))) := by
  refine ⟨?_, fun h => by simp [analyze_sentiment, h], fun h => ?_⟩
  · unfold analyze_sentiment
    split
    · norm_num
    · constructor
      · exact le_max_left _ _
      · exact max_le (by norm_num) (min_le_left _ _)
  · unfold analyze_sentiment
    rw [if_neg h, Nat.max_comm]
    ring_nf

/-- C2 witness: the empty string scores `0` and the string `"love"` scores
`1`, by the two branches of `C2_sentiment_range_and_formula`. -/
theorem C2_sentiment_range_and_formula_witness :
    analyze_sentiment "" = 0 ∧ analyze_sentiment "love" = 1 := by
  constructor
  · exact (C2_sentiment_range_and_formula "").2.1 (by decide)
  · refine ((C2_sentiment_range_and_formula "love").2.2 (by decide)).trans ?_
    have h1 : positiveCount "love" = 1 := by decide
    have h2 : negativeCount "love" = 0 := by decide
    have h3 : (simple_tokenize "love").length = 1 := by decide
    rw [h1, h2, h3]
    norm_num

/-- C3: on the empty interaction list, `process` returns no facts, no
insights, no errors, and a nonnegative processing time. -/
theorem C3_process_empty_input (userId durationMs : Nat) :
    (process_user_interactions userId durationMs []).new_facts = [] ∧
    (process_user_interactions userId durationMs []).insights = [] ∧
    (process_user_interactions userId durationMs []).errors = [] ∧
    0 ≤ (process_user_interactions userId durationMs []).processing_time_ms :=
  ⟨rfl, rfl, rfl, Int.natCast_nonneg _⟩

/-- C4 counterexample: an interaction whose sentiment field is populated
with `0.0` is overwritten by processing (Python truthiness treats `0.0` as
unset), refuting the claim that populated fields are never overwritten. -/
theorem C4_populated_fields_counterexample :
    c4Interaction.sentiment = some 0 ∧
    c4Interaction.processed = false ∧
    ((processFull okAnalyzer 1 0 [c4Interaction]).2.map (fun i => i.sentiment)) = [some 1] := by
  refine ⟨rfl, rfl, ?_⟩
  simp only [processFull]
  simp [analyzeSingleWith, okAnalyzer, truthyFloat, truthyList, truthyStr,
    Except.map, c4Interaction, sentiment_love]

/-- C4 amended: `process` only ever modifies the sentiment, topics and
intent fields, only on interactions not marked processed; a field holding a
truthy value (a nonzero sentiment, a nonempty topic list, a nonempty intent
string) is never overwritten, and all other fields are unchanged. Falsy
values (`None`, sentiment `0.0`, topics `[]`, intent `""`) count as unset
and may be recomputed. -/
theorem C4_frame_condition_amended (A : FallibleAnalyzer) (userId durationMs : Nat)
    (ints : List UserInteraction) :
    List.Forall₂ (fun i o =>
      o.id = i.id ∧ o.user_id = i.user_id ∧ o.interaction_type = i.interaction_type ∧
      o.content = i.content ∧ o.timestamp = i.timestamp ∧ o.processed = i.processed ∧
      (i.processed = true → o = i) ∧
      (truthyFloat i.sentiment = true → o.sentiment = i.sentiment) ∧
      (truthyList i.topics = true → o.topics = i.topics) ∧
      (truthyStr i.intent = true → o.intent = i.intent))
      ints (processFull A userId durationMs ints).2 := by
  simp only [processFull, List.map_map]
  rw [List.forall₂_map_right_iff, List.forall₂_same]
  intro i _
  simp only [Function.comp_apply]
  by_cases hp : i.processed = true
  · rw [if_pos hp]
    simp [hp]
  · rw [if_neg hp]
    obtain ⟨f1, f2, f3, f4, f5, f6, f7, f8, f9⟩ := analyzeSingleWith_frame A i
    exact ⟨f1, f2, f3, f4, f5, f6, fun hpi => absurd hpi hp, f7, f8, f9⟩

/-- C4 amended witness: the frame condition at the concrete interaction
`c4Interaction`. -/
theorem C4_frame_condition_amended_witness :
    List.Forall₂ (fun i o =>
      o.id = i.id ∧ o.user_id = i.user_id ∧ o.interaction_type = i.interaction_type ∧
      o.content = i.content ∧ o.timestamp = i.timestamp ∧ o.processed = i.processed ∧
      (i.processed = true → o = i) ∧
      (truthyFloat i.sentiment = true → o.sentiment = i.sentiment) ∧
      (truthyList i.topics = true → o.topics = i.topics) ∧
      (truthyStr i.intent = true → o.intent = i.intent))
      [c4Interaction] (processFull okAnalyzer 1 0 [c4Interaction]).2 :=
  C4_frame_condition_amended okAnalyzer 1 0 [c4Interaction]

/-- C5: whenever the pattern mapping holds topic statistics, the emitted
topic interest facts are exactly one fact per entry of the first five
`top_topics` entries with count at least 3, carrying that count as evidence
and confidence high when the count exceeds 5, medium otherwise; entries
outside the first five or below count 3 yield none. -/
theorem C5_topic_interest_facts (userId : Nat) (p : Patterns) (tp : TopicPatterns)
    (h : p.topic_preferences = some tp) :
    (generate_facts_from_patterns userId p).filter
        (fun f => decide (f.fact_type = "topic_interest")) =
      ((tp.top_topics.take 5).filter (fun q => decide (3 ≤ q.2))).map (fun q =>
        { user_id := userId, category := "interests", fact_type := "topic_interest",
          fact_key := "interest_" ++ q.1, fact_value := "Shows strong interest in " ++ q.1,
          confidence_level := if 5 < q.2 then "high" else "medium",
          evidence_count := some q.2, learning_method := "topic_analysis" }) := by
  unfold generate_facts_from_patterns
  rw [List.filter_append, List.filter_append]
  have h1 : (time_preference_facts userId p).filter
      (fun f => decide (f.fact_type = "topic_interest")) = [] := by
    unfold time_preference_facts
    split
    · split
      · simp
      · rfl
    · rfl
  have h2 : (message_length_facts userId p).filter
      (fun f => decide (f.fact_type = "topic_interest")) = [] := by
    unfold message_length_facts
    split
    · split
      · simp
      · rfl
    · rfl
  rw [h1, h2]
  simp only [List.nil_append]
  unfold topic_interest_facts
  rw [h]
  dsimp only
  split
  · rename_i he
    rw [List.isEmpty_iff] at he
    rw [he]
    rfl
  · exact filter_filterMap_ite _ _ _ (fun q => by simp [topicInterestFact]) _

/-- C5 witness: the concrete topic statistics `c5TopicPatterns` yield a
high-confidence fact for guitar (count 6), a medium one for jazz (count 3)
and none for drums (count 2). -/
theorem C5_topic_interest_facts_witness :
    (generate_facts_from_patterns 1 c5Patterns).filter
        (fun f => decide (f.fact_type = "topic_interest")) =
      ((c5TopicPatterns.top_topics.take 5).filter (fun q => decide (3 ≤ q.2))).map (fun q =>
        { user_id := 1, category := "interests", fact_type := "topic_interest",
          fact_key := "interest_" ++ q.1, fact_value := "Shows strong interest in " ++ q.1,
          confidence_level := if 5 < q.2 then "high" else "medium",
          evidence_count := some q.2, learning_method := "topic_analysis" }) :=
  C5_topic_interest_facts 1 c5Patterns c5TopicPatterns rfl

/-- C6: the extracted topic list has at most 10 entries, contains no stop
word and no token of length at most 2, and is ordered by strictly
descending token frequency with ties broken by the first-occurrence order
of the tokens among the filtered tokens of the text. -/
theorem C6_extract_topics_spec (text : String) :
    (extract_topics text).length ≤ 10 ∧
    (∀ t ∈ extract_topics text, t ∉ stop_words ∧ 2 < t.length) ∧
    List.Pairwise (fun a b =>
      (filteredTokens text).count b < (filteredTokens text).count a ∨
      ((filteredTokens text).count a = (filteredTokens text).count b ∧
        (filteredTokens text).indexOf a < (filteredTokens text).indexOf b))
      (extract_topics text) := by
  have hres : extract_topics text =
      ((List.insertionSort mcRel (counterList (filteredTokens text)).enum).take 10).map
        (Prod.fst ∘ Prod.snd) := by
    unfold extract_topics mostCommon
    rw [← List.map_take, List.map_map]
  have hperm : (List.insertionSort mcRel (counterList (filteredTokens text)).enum).Perm
      (counterList (filteredTokens text)).enum := List.perm_insertionSort _ _
  have hmemS : ∀ e ∈ (List.insertionSort mcRel (counterList (filteredTokens text)).enum).take 10,
      e.2.2 = (filteredTokens text).count e.2.1 ∧
      (firstDedup (filteredTokens text)).indexOf e.2.1 = e.1 ∧
      e.2.1 ∈ firstDedup (filteredTokens text) := by
    intro e he
    exact counter_entry _ e (hperm.mem_iff.mp ((List.take_sublist 10 _).subset he))
  refine ⟨?_, ?_, ?_⟩
  · rw [hres]
    rw [List.length_map, List.length_take]
    exact min_le_left _ _
  · intro t ht
    rw [hres] at ht
    obtain ⟨e, he, rfl⟩ := List.mem_map.mp ht
    have hm : e.2.1 ∈ firstDedup (filteredTokens text) := (hmemS e he).2.2
    have hm2 : e.2.1 ∈ filteredTokens text := mem_firstDedup.mp hm
    unfold filteredTokens at hm2
    have hprop := (List.mem_filter.mp hm2).2
    simp only [Bool.and_eq_true, decide_eq_true_eq] at hprop
    exact hprop
  · have hsorted : (List.insertionSort mcRel (counterList (filteredTokens text)).enum).Pairwise
        mcRel := List.sorted_insertionSort _ _
    have hnodupfst : (List.insertionSort mcRel
        (counterList (filteredTokens text)).enum).Pairwise (fun x y => x.1 ≠ y.1) := by
      have h0 : ((counterList (filteredTokens text)).enum.map Prod.fst).Nodup := by
        rw [List.enum_map_fst]
        exact List.nodup_range _
      have hmapnd : ((List.insertionSort mcRel
          (counterList (filteredTokens text)).enum).map Prod.fst).Nodup :=
        ((hperm.map Prod.fst).nodup_iff).mpr h0
      exact List.pairwise_map.mp hmapnd
    have hstrong := hsorted.and hnodupfst
    have htake := List.Pairwise.sublist (List.take_sublist 10 _) hstrong
    rw [hres, List.pairwise_map]
    refine List.Pairwise.imp_of_mem ?_ htake
    intro x y hx hy hxy
    obtain ⟨hrel, hne⟩ := hxy
    obtain ⟨hcx, hix, hmx⟩ := hmemS x hx
    obtain ⟨hcy, hiy, hmy⟩ := hmemS y hy
    unfold mcRel at hrel
    rcases hrel with hlt | ⟨hceq, hle⟩
    · left
      simp only [Function.comp_apply]
      rw [← hcx, ← hcy]
      exact hlt
    · right
      constructor
      · simp only [Function.comp_apply]
        rw [← hcx, ← hcy]
        exact hceq
      · simp only [Function.comp_apply]
        rw [← firstDedup_indexOf_lt_iff _ x.2.1 y.2.1 hmx hmy, hix, hiy]
        exact lt_of_le_of_ne hle hne

/-- C6 witness: the topic specification at a concrete sentence. -/
theorem C6_extract_topics_spec_witness :
    (extract_topics "I love playing guitar and jazz music guitar").length ≤ 10 ∧
    (∀ t ∈ extract_topics "I love playing guitar and jazz music guitar",
      t ∉ stop_words ∧ 2 < t.length) ∧
    List.Pairwise (fun a b =>
      (filteredTokens "I love playing guitar and jazz music guitar").count b <
        (filteredTokens "I love playing guitar and jazz music guitar").count a ∨
      ((filteredTokens "I love playing guitar and jazz music guitar").count a =
        (filteredTokens "I love playing guitar and jazz music guitar").count b ∧
        (filteredTokens "I love playing guitar and jazz music guitar").indexOf a <
          (filteredTokens "I love playing guitar and jazz music guitar").indexOf b))
      (extract_topics "I love playing guitar and jazz music guitar") :=
  C6_extract_topics_spec "I love playing guitar and jazz music guitar"

/-- C7: the intent rules fire top to bottom with first match winning, in the
order help, preference, gratitude, greeting, question mark, statement. -/
theorem C7_classify_intent_rules (text : String) :
    (contains_any (strLower text) help_keywords = true →
      classify_intent text = "help_request") ∧
    (contains_any (strLower text) help_keywords = false →
      contains_any (strLower text) preference_keywords = true →
      classify_intent text = "preference_expression") ∧
    (contains_any (strLower text) help_keywords = false →
      contains_any (strLower text) preference_keywords = false →
      contains_any (strLower text) gratitude_keywords = true →
      classify_intent text = "gratitude") ∧
    (contains_any (strLower text) help_keywords = false →
      contains_any (strLower text) preference_keywords = false →
      contains_any (strLower text) gratitude_keywords = false →
      contains_any (strLower text) greeting_keywords = true →
      classify_intent text = "greeting") ∧
    (contains_any (strLower text) help_keywords = false →
      contains_any (strLower text) preference_keywords = false →
      contains_any (strLower text) gratitude_keywords = false →
      contains_any (strLower text) greeting_keywords = false →
      strContains (strLower text) "?" = true →
      classify_intent text = "question") ∧
    (contains_any (strLower text) help_keywords = false →
      contains_any (strLower text) preference_keywords = false →
      contains_any (strLower text) gratitude_keywords = false →
      contains_any (strLower text) greeting_keywords = false →
      strContains (strLower text) "?" = false →
      classify_intent text = "statement") := by
  refine ⟨?_, ?_, ?_, ?_, ?_, ?_⟩ <;> intros <;> simp_all [classify_intent]

/-- C7 witness: the empty string is a statement (no keyword, no question
mark) and an explain request fires the first rule. -/
theorem C7_classify_intent_rules_witness :
    classify_intent "" = "statement" ∧ classify_intent "can you explain X" = "help_request" := by
  constructor
  · exact (C7_classify_intent_rules "").2.2.2.2.2
      (by decide) (by decide) (by decide) (by decide) (by decide)
  · exact (C7_classify_intent_rules "can you explain X").1 (by decide)

/-- C8: the content length trend is stable for fewer than 6 interactions;
for 6 or more it is increasing exactly when the second-half mean exceeds
1.1 times the first-half mean, decreasing exactly when it is below 0.9
times the first-half mean, and stable otherwise. -/
theorem C8_content_length_trend (ints : List UserInteraction) :
    (ints.length < 6 → (analyzeContentPatterns ints).content_length_trend = "stable") ∧
    (6 ≤ ints.length →
      (((analyzeContentPatterns ints).content_length_trend = "increasing" ↔
         secondHalfAvg ints > firstHalfAvg ints * 1.1) ∧
       ((analyzeContentPatterns ints).content_length_trend = "decreasing" ↔
         secondHalfAvg ints < firstHalfAvg ints * 0.9) ∧
       ((analyzeContentPatterns ints).content_length_trend = "stable" ↔
         (¬ secondHalfAvg ints > firstHalfAvg ints * 1.1 ∧
          ¬ secondHalfAvg ints < firstHalfAvg ints * 0.9)))) := by
  have hlen : (ints.map contentLen).length = ints.length := List.length_map _ _
  constructor
  · intro h
    simp only [analyzeContentPatterns, hlen]
    rw [if_neg (by omega : ¬ 5 < ints.length)]
  · intro h
    have h5 : 5 < ints.length := by omega
    have hT : (analyzeContentPatterns ints).content_length_trend =
        (if secondHalfAvg ints > firstHalfAvg ints * 1.1 then "increasing"
         else if secondHalfAvg ints < firstHalfAvg ints * 0.9 then "decreasing"
         else "stable") := by
      simp only [analyzeContentPatterns, hlen]
      rw [if_pos h5]
    rw [hT]
    by_cases hA : secondHalfAvg ints > firstHalfAvg ints * 1.1
    · have hnB : ¬ secondHalfAvg ints < firstHalfAvg ints * 0.9 := by
        have hf := firstHalfAvg_nonneg ints
        intro hB
        nlinarith
      rw [if_pos hA]
      exact ⟨iff_of_true rfl hA, iff_of_false (by decide) hnB,
        iff_of_false (by decide) (by tauto)⟩
    · rw [if_neg hA]
      by_cases hB : secondHalfAvg ints < firstHalfAvg ints * 0.9
      · rw [if_pos hB]
        exact ⟨iff_of_false (by decide) hA, iff_of_true rfl hB,
          iff_of_false (by decide) (by tauto)⟩
      · rw [if_neg hB]
        exact ⟨iff_of_false (by decide) hA, iff_of_false (by decide) hB,
          iff_of_true rfl ⟨hA, hB⟩⟩

/-- C8 witness: six interactions with content lengths 1, 1, 1, 9, 9, 9 give
the trend increasing (second-half mean 9 exceeds 1.1 times 1). -/
theorem C8_content_length_trend_witness :
    (analyzeContentPatterns c8Interactions).content_length_trend = "increasing" := by
  have h := (C8_content_length_trend c8Interactions).2 (by decide)
  refine h.1.mpr ?_
  have h1 : firstHalfAvg c8Interactions = 1 := by
    show ((3 : Nat) : ℚ) / ((3 : Nat) : ℚ) = 1
    norm_num
  have h2 : secondHalfAvg c8Interactions = 9 := by
    show ((27 : Nat) : ℚ) / ((3 : Nat) : ℚ) = 9
    norm_num
  rw [h1, h2]
  norm_num

/-- C9: every fact emitted by `process` carries an effective evidence count
of at least 1 (topic interest facts carry their occurrence count, at least
3; the other two kinds omit the key and receive the storage default 1). -/
theorem C9_evidence_count_at_least_one (A : FallibleAnalyzer) (userId durationMs : Nat)
    (ints : List UserInteraction) (f : LearnedFact)
    (h : f ∈ (processFull A userId durationMs ints).1.new_facts) :
    1 ≤ evidenceCountOrDefault f :=
  facts_evidence userId _ f h

/-- C9 witness: the time preference fact emitted for `c9Interaction`. -/
theorem C9_evidence_count_at_least_one_witness : 1 ≤ evidenceCountOrDefault c9Fact :=
  C9_evidence_count_at_least_one okAnalyzer 7 0 [c9Interaction] c9Fact c9Fact_mem

/-- C10: the intent keywords are matched as substrings of the lowercased
text, not as whole tokens: every text containing the substring `what` is
classified as a help request, regardless of later-rule keywords. -/
theorem C10_substring_intent_matching (text : String)
    (h : strContains (strLower text) "what" = true) :
    classify_intent text = "help_request" := by
  have hc : contains_any (strLower text) help_keywords = true := by
    unfold contains_any
    rw [List.any_eq_true]
    exact ⟨"what", by simp [help_keywords], h⟩
  simp [classify_intent, hc]

/-- C10 witness: `whatever` contains `what` only inside a longer word and is
classified as a help request; `I think` contains `hi` only inside a longer
word and is classified as a greeting. -/
theorem C10_substring_intent_matching_witness :
    classify_intent "whatever" = "help_request" ∧ classify_intent "I think" = "greeting" :=
  ⟨C10_substring_intent_matching "whatever" (by decide), by decide⟩

end Smart
